import Mathlib

/-!
# RogueSky — verification of the cache-aside forecast pipeline

Shallow embedding of the rogue-sky repository core: the canonical daily
weather record, the star-visibility predictor, the keyed forecast store
(two tables with upsert/replace semantics), the weather and star
orchestrators, and the response serializer.  The SQL table schemas are
transcribed from the repository's DDL files; the Python modules
(`rogue_sky/darksky.py`, `rogue_sky/stars.py`,
`rogue_sky/postgres_utilities.py`) are not present in the source tree, so
their operations are modelled from the specification, pinned where
possible by the recorded outputs in `examples/playing_around.ipynb`.
-/

namespace RogueSky

/-- A JSON value, as produced by the serializers. -/
inductive JsonVal where
  | null : JsonVal
  | str : String → JsonVal
  | num : ℚ → JsonVal
  | arr : List JsonVal → JsonVal
  | obj : List (String × JsonVal) → JsonVal

/-- Canonical Daily Weather Record: one calendar day's forecast at a
coordinate, with the flattened unit-suffixed field names recorded in the
notebook output of `darksky.get_weather_forecast`.  Numeric fields are
modelled as rationals; the three probability/percentage fields read by the
predictor are `Option` so that a missing mandatory input can be modelled. -/
structure DailyWeatherRecord where
  weather_date_utc : String
  sunrise_time_utc : String
  sunset_time_utc : String
  moon_phase_pct : Option ℚ
  cloud_cover_pct : Option ℚ
  precip_probability : Option ℚ
  precip_intensity_avg_in_hr : ℚ
  precip_intensity_max_in_hr : ℚ
  precip_type : String
  temperature_min_f : ℚ
  temperature_min_time_utc : String
  temperature_max_f : ℚ
  temperature_max_time_utc : String
  humidity_pct : ℚ
  pressure : ℚ
  wind_speed_mph : ℚ
  wind_gust_mph : ℚ
  uv_index : ℚ
  visibility_mi : ℚ
  ozone : ℚ
  dew_point_f : ℚ
deriving DecidableEq

/-- The 21 flattened field names of a serialized daily weather record, in
the order recorded in the notebook output. -/
def canonicalWeatherFieldNames : List String :=
  ["cloud_cover_pct", "dew_point_f", "humidity_pct", "moon_phase_pct",
   "ozone", "precip_intensity_avg_in_hr", "precip_intensity_max_in_hr",
   "precip_probability", "precip_type", "pressure", "sunrise_time_utc",
   "sunset_time_utc", "temperature_max_f", "temperature_max_time_utc",
   "temperature_min_f", "temperature_min_time_utc", "uv_index",
   "visibility_mi", "weather_date_utc", "wind_gust_mph", "wind_speed_mph"]

/-- Serialize an optional numeric field (absent becomes JSON null). -/
def optNum : Option ℚ → JsonVal
  | none => JsonVal.null
  | some q => JsonVal.num q

/-- Flatten a canonical daily weather record into a JSON object
(association list), one entry per canonical field. -/
def dwToJson (w : DailyWeatherRecord) : List (String × JsonVal) :=
  [("cloud_cover_pct", optNum w.cloud_cover_pct),
   ("dew_point_f", JsonVal.num w.dew_point_f),
   ("humidity_pct", JsonVal.num w.humidity_pct),
   ("moon_phase_pct", optNum w.moon_phase_pct),
   ("ozone", JsonVal.num w.ozone),
   ("precip_intensity_avg_in_hr", JsonVal.num w.precip_intensity_avg_in_hr),
   ("precip_intensity_max_in_hr", JsonVal.num w.precip_intensity_max_in_hr),
   ("precip_probability", optNum w.precip_probability),
   ("precip_type", JsonVal.str w.precip_type),
   ("pressure", JsonVal.num w.pressure),
   ("sunrise_time_utc", JsonVal.str w.sunrise_time_utc),
   ("sunset_time_utc", JsonVal.str w.sunset_time_utc),
   ("temperature_max_f", JsonVal.num w.temperature_max_f),
   ("temperature_max_time_utc", JsonVal.str w.temperature_max_time_utc),
   ("temperature_min_f", JsonVal.num w.temperature_min_f),
   ("temperature_min_time_utc", JsonVal.str w.temperature_min_time_utc),
   ("uv_index", JsonVal.num w.uv_index),
   ("visibility_mi", JsonVal.num w.visibility_mi),
   ("weather_date_utc", JsonVal.str w.weather_date_utc),
   ("wind_gust_mph", JsonVal.num w.wind_gust_mph),
   ("wind_speed_mph", JsonVal.num w.wind_speed_mph)]

/-- Clamp a rational to the closed interval [0,1]. -/
def clamp01 (x : ℚ) : ℚ := max 0 (min 1 x)

/-- Modelled from the spec: the Star Visibility Predictor of the missing
`rogue_sky/stars.py` module.  The spec describes a weighted combination of
the inverse cloud-cover, inverse precipitation-probability and inverse
moon-phase signals, clamped to [0,1], with cloud cover and moon phase
mandatory (their absence is the `InsufficientData` condition, modelled as
`none`).  The spec's own documented reference value — score ≈ 0.07 at
cloud 0.93, precip 0.34, moon 0.46 — pins the weights at (1, 0, 0),
matching the recorded notebook output
`star_visibility = 0.0699… = 1 − cloud_cover_pct`. -/
def predict (w : DailyWeatherRecord) : Option ℚ :=
  match w.cloud_cover_pct, w.moon_phase_pct with
  | some c, some _ => some (clamp01 (1 - c))
  | _, _ => none

/-- The concrete weather day recorded in the notebook (Seattle,
2019-11-10): cloud cover 0.93, precip probability 0.34, moon phase 0.46. -/
def exampleDay : DailyWeatherRecord :=
  { weather_date_utc := "2019-11-10"
    sunrise_time_utc := "2019-11-10T15:09:00+00:00"
    sunset_time_utc := "2019-11-11T00:41:00+00:00"
    moon_phase_pct := some (46/100)
    cloud_cover_pct := some (93/100)
    precip_probability := some (34/100)
    precip_intensity_avg_in_hr := 4/10000
    precip_intensity_max_in_hr := 24/10000
    precip_type := "rain"
    temperature_min_f := 4473/100
    temperature_min_time_utc := "2019-11-11T08:00:00+00:00"
    temperature_max_f := 5325/100
    temperature_max_time_utc := "2019-11-10T21:56:00+00:00"
    humidity_pct := 94/100
    pressure := 10261/10
    wind_speed_mph := 393/100
    wind_gust_mph := 1125/100
    uv_index := 1
    visibility_mi := 5174/1000
    ozone := 2622/10
    dew_point_f := 4857/100 }

/-- A perfectly clear day: no clouds, no rain, new moon. -/
def clearDay : DailyWeatherRecord :=
  { exampleDay with
    cloud_cover_pct := some 0
    precip_probability := some 0
    moon_phase_pct := some 0 }

/-- C4: the predictor applied to the documented example record
(cloud_cover_pct = 0.93, precip_probability = 0.34, moon_phase_pct = 0.46)
yields exactly 7/100 ≈ 0.07, and applied to the record with all three
signals zeroed yields exactly 1. -/
theorem predict_reference_values :
    predict exampleDay = some (7/100) ∧ predict clearDay = some 1 := by
  constructor <;> simp [predict, exampleDay, clearDay, clamp01] <;> norm_num

/-- C2: for every weather record whose percentage fields lie in [0,1] and
whose mandatory cloud-cover and moon-phase fields are present, the
predictor returns a score in the closed interval [0,1]. -/
theorem predict_bounds (w : DailyWeatherRecord) (c m : ℚ)
    (hc : w.cloud_cover_pct = some c) (hc0 : 0 ≤ c) (hc1 : c ≤ 1)
    (hm : w.moon_phase_pct = some m) (hm0 : 0 ≤ m) (hm1 : m ≤ 1)
    (hp : ∀ p, w.precip_probability = some p → 0 ≤ p ∧ p ≤ 1)
    (hh0 : 0 ≤ w.humidity_pct) (hh1 : w.humidity_pct ≤ 1) :
    ∃ s, predict w = some s ∧ 0 ≤ s ∧ s ≤ 1 := by
  refine ⟨clamp01 (1 - c), ?_, ?_, ?_⟩
  · simp [predict, hc, hm]
  · exact le_max_left 0 _
  · exact max_le (by norm_num) (min_le_left 1 _)

/-- Witness for C2 at the notebook's example record. -/
theorem predict_bounds_witness :
    exampleDay.cloud_cover_pct = some (93/100) ∧
    exampleDay.moon_phase_pct = some (46/100) ∧
    ∃ s, predict exampleDay = some s ∧ 0 ≤ s ∧ s ≤ 1 := by
  refine ⟨rfl, rfl, ?_⟩
  exact predict_bounds exampleDay (93/100) (46/100) rfl (by norm_num)
    (by norm_num) rfl (by norm_num) (by norm_num)
    (fun p hp => by simp [exampleDay] at hp; constructor <;> norm_num [← hp])
    (by norm_num [exampleDay]) (by norm_num [exampleDay])

/-- C3: holding all other fields fixed, increasing `cloud_cover_pct` never
increases the predicted score, and increasing `moon_phase_pct` never
increases the predicted score. -/
theorem predict_antitone (w : DailyWeatherRecord) :
    (∀ c1 c2 s1 s2, c1 ≤ c2 →
      predict { w with cloud_cover_pct := some c1 } = some s1 →
      predict { w with cloud_cover_pct := some c2 } = some s2 → s2 ≤ s1)
    ∧ (∀ m1 m2 s1 s2, m1 ≤ m2 →
      predict { w with moon_phase_pct := some m1 } = some s1 →
      predict { w with moon_phase_pct := some m2 } = some s2 → s2 ≤ s1) := by
  constructor
  · intro c1 c2 s1 s2 hle h1 h2
    cases hm : w.moon_phase_pct with
    | none => simp [predict, hm] at h1
    | some m =>
      simp [predict, hm] at h1 h2
      rw [← h1, ← h2]
      exact max_le_max le_rfl (min_le_min le_rfl (by linarith))
  · intro m1 m2 s1 s2 _ h1 h2
    cases hcl : w.cloud_cover_pct with
    | none => simp [predict, hcl] at h1
    | some c =>
      simp [predict, hcl] at h1 h2
      rw [← h1, ← h2]

/-- Witness for C3: at the example record, raising cloud cover from 0.5 to
0.93 lowers the score, and raising moon phase from 0.1 to 0.9 does not
raise it. -/
theorem predict_antitone_witness :
    ((1:ℚ)/2 ≤ 93/100) ∧
    predict { exampleDay with cloud_cover_pct := some (1/2) } = some (1/2) ∧
    predict { exampleDay with cloud_cover_pct := some (93/100) } = some (7/100) ∧
    ((7:ℚ)/100 ≤ 1/2) ∧
    ((1:ℚ)/10 ≤ 9/10) ∧
    predict { exampleDay with moon_phase_pct := some (1/10) } = some (7/100) ∧
    predict { exampleDay with moon_phase_pct := some (9/10) } = some (7/100) ∧
    ((7:ℚ)/100 ≤ 7/100) := by
  have h1 : predict { exampleDay with cloud_cover_pct := some (1/2) } = some (1/2) := by
    simp [predict, exampleDay, clamp01]; norm_num
  have h2 : predict { exampleDay with cloud_cover_pct := some (93/100) } = some (7/100) := by
    simp [predict, exampleDay, clamp01]; norm_num
  have h3 : predict { exampleDay with moon_phase_pct := some (1/10) } = some (7/100) := by
    simp [predict, exampleDay, clamp01]; norm_num
  have h4 : predict { exampleDay with moon_phase_pct := some (9/10) } = some (7/100) := by
    simp [predict, exampleDay, clamp01]; norm_num
  refine ⟨by norm_num, h1, h2,
    (predict_antitone exampleDay).1 (1/2) (93/100) (1/2) (7/100) (by norm_num) h1 h2,
    by norm_num, h3, h4,
    (predict_antitone exampleDay).2 (1/10) (9/10) (7/100) (7/100) (by norm_num) h3 h4⟩

/-- C9: the predictor is a deterministic pure function of its weather
record — its result depends only on the field values read from the record
(no hidden state, no I/O), so equal inputs always yield equal scores. -/
theorem predict_deterministic (w1 w2 : DailyWeatherRecord)
    (hc : w1.cloud_cover_pct = w2.cloud_cover_pct)
    (hm : w1.moon_phase_pct = w2.moon_phase_pct)
    (hp : w1.precip_probability = w2.precip_probability) :
    predict w1 = predict w2 := by
  unfold predict
  rw [hc, hm]

/-- Witness for C9: two evaluations at the example record agree. -/
theorem predict_deterministic_witness :
    exampleDay.cloud_cover_pct = exampleDay.cloud_cover_pct ∧
    predict exampleDay = predict exampleDay :=
  ⟨rfl, predict_deterministic exampleDay exampleDay rfl rfl rfl⟩

/-- A row of the weather table: the Forecast Key plus the canonical record
stored as `weather_json` (dates are modelled as day numbers). -/
structure WeatherRow where
  latitude : ℚ
  longitude : ℚ
  queried_date_utc : Nat
  weather_date_utc : Nat
  weather_json : DailyWeatherRecord
deriving DecidableEq

/-- A row of the star-visibility table: the Forecast Key plus the score. -/
structure StarRow where
  latitude : ℚ
  longitude : ℚ
  queried_date_utc : Nat
  weather_date_utc : Nat
  prediction : ℚ
deriving DecidableEq

/-- The composite Forecast Key of a weather row. -/
def weatherKey (r : WeatherRow) : ℚ × ℚ × Nat × Nat :=
  (r.latitude, r.longitude, r.queried_date_utc, r.weather_date_utc)

/-- The composite Forecast Key of a star row. -/
def starKey (r : StarRow) : ℚ × ℚ × Nat × Nat :=
  (r.latitude, r.longitude, r.queried_date_utc, r.weather_date_utc)

/-- Modelled from the spec: a single upsert into a keyed table (the
missing `rogue_sky/postgres_utilities.py` persistence helper).  The spec
says a write for an existing Forecast Key replaces the stored row rather
than duplicating it, so the upsert removes any row with the same key and
inserts the new row. -/
def upsertBy {α β : Type} [DecidableEq β] (key : α → β)
    (store : List α) (r : α) : List α :=
  store.filter (fun x => !decide (key x = key r)) ++ [r]

/-- Modelled from the spec: persist a batch of records, upserting each in
order, keyed by its full Forecast Key. -/
def persistBy {α β : Type} [DecidableEq β] (key : α → β)
    (store : List α) (rs : List α) : List α :=
  rs.foldl (upsertBy key) store

/-- Persist a batch into the weather table. -/
def persistWeather (store : List WeatherRow) (rs : List WeatherRow) : List WeatherRow :=
  persistBy weatherKey store rs

/-- Persist a batch into the star-visibility table. -/
def persistStar (store : List StarRow) (rs : List StarRow) : List StarRow :=
  persistBy starKey store rs

/-- The store integrity invariant: one row per Forecast Key (the tables'
PRIMARY KEY constraint). -/
def uniqueKeys {α β : Type} (key : α → β) (store : List α) : Prop :=
  List.Pairwise (fun a b => key a ≠ key b) store

/-- An upsert leaves exactly the inserted row at its key, whatever the
previous store contents were. -/
theorem upsertBy_filter_key {α β : Type} [DecidableEq β] (key : α → β)
    (store : List α) (r : α) :
    (upsertBy key store r).filter (fun x => decide (key x = key r)) = [r] := by
  unfold upsertBy
  rw [List.filter_append]
  have h1 : (store.filter (fun x => !decide (key x = key r))).filter
      (fun x => decide (key x = key r)) = [] := by
    rw [List.filter_filter]
    apply List.filter_eq_nil_iff.mpr
    intro a _
    simp
  rw [h1]
  simp

/-- An upsert preserves the one-row-per-key invariant. -/
theorem upsertBy_uniqueKeys {α β : Type} [DecidableEq β] (key : α → β)
    (store : List α) (r : α) (h : uniqueKeys key store) :
    uniqueKeys key (upsertBy key store r) := by
  unfold upsertBy uniqueKeys
  apply List.pairwise_append.mpr
  refine ⟨List.Pairwise.filter _ h, List.pairwise_singleton _ _, ?_⟩
  intro x hx y hy
  rcases List.mem_filter.mp hx with ⟨_, hne⟩
  rcases List.mem_singleton.mp hy with rfl
  simpa using hne

/-- Transcribed from the repository DDL: a table schema is a name, a list
of (column, type) pairs, and the primary-key column list. -/
structure TableSchema where
  tableName : String
  columns : List (String × String)
  primaryKey : List String

/-- Transcribed from the weather-table DDL in the source tree
(`CREATE TABLE daily_weather_forecast ...`). -/
def daily_weather_forecast : TableSchema :=
  { tableName := "daily_weather_forecast"
    columns := [("latitude", "NUMERIC"), ("longitude", "NUMERIC"),
                ("queried_date_utc", "DATE"), ("weather_date_local", "DATE"),
                ("weather_json", "JSONB")]
    primaryKey := ["latitude", "longitude", "queried_date_utc", "weather_date_local"] }

/-- Transcribed from `rogue_sky/sql/create_star_table.sql`
(`CREATE TABLE daily_star_visibility_forecast ...`). -/
def daily_star_visibility_forecast : TableSchema :=
  { tableName := "daily_star_visibility_forecast"
    columns := [("latitude", "NUMERIC"), ("longitude", "NUMERIC"),
                ("queried_date_utc", "DATE"), ("weather_date_utc", "DATE"),
                ("prediction", "NUMERIC")]
    primaryKey := ["latitude", "longitude", "queried_date_utc", "weather_date_utc"] }

/-- C5: persisting two records with the same Forecast Key but different
content leaves exactly one row for that key in either table — the second
write's row — and persisting preserves the one-row-per-key invariant. -/
theorem persist_replaces (ws : List WeatherRow) (r1 r2 : WeatherRow)
    (ss : List StarRow) (t1 t2 : StarRow)
    (hw : weatherKey r1 = weatherKey r2) (hs : starKey t1 = starKey t2)
    (hwfW : uniqueKeys weatherKey ws) (hwfS : uniqueKeys starKey ss) :
    ((persistWeather (persistWeather ws [r1]) [r2]).filter
        (fun x => decide (weatherKey x = weatherKey r2)) = [r2]
      ∧ (persistWeather (persistWeather ws [r1]) [r2]).countP
        (fun x => decide (weatherKey x = weatherKey r2)) = 1
      ∧ uniqueKeys weatherKey (persistWeather (persistWeather ws [r1]) [r2]))
    ∧ ((persistStar (persistStar ss [t1]) [t2]).filter
        (fun x => decide (starKey x = starKey t2)) = [t2]
      ∧ (persistStar (persistStar ss [t1]) [t2]).countP
        (fun x => decide (starKey x = starKey t2)) = 1
      ∧ uniqueKeys starKey (persistStar (persistStar ss [t1]) [t2])) := by
  have hpw : persistWeather (persistWeather ws [r1]) [r2]
      = upsertBy weatherKey (upsertBy weatherKey ws r1) r2 := rfl
  have hps : persistStar (persistStar ss [t1]) [t2]
      = upsertBy starKey (upsertBy starKey ss t1) t2 := rfl
  constructor
  · rw [hpw]
    have hf := upsertBy_filter_key weatherKey (upsertBy weatherKey ws r1) r2
    refine ⟨hf, ?_, ?_⟩
    · rw [List.countP_eq_length_filter, hf]; rfl
    · exact upsertBy_uniqueKeys _ _ _ (upsertBy_uniqueKeys _ _ _ hwfW)
  · rw [hps]
    have hf := upsertBy_filter_key starKey (upsertBy starKey ss t1) t2
    refine ⟨hf, ?_, ?_⟩
    · rw [List.countP_eq_length_filter, hf]; rfl
    · exact upsertBy_uniqueKeys _ _ _ (upsertBy_uniqueKeys _ _ _ hwfS)

/-- Example weather row used in witnesses. -/
def exampleWeatherRow : WeatherRow :=
  { latitude := 47, longitude := -122,
    queried_date_utc := 100, weather_date_utc := 100,
    weather_json := exampleDay }

/-- Example star row used in witnesses. -/
def exampleStarRow : StarRow :=
  { latitude := 47, longitude := -122,
    queried_date_utc := 100, weather_date_utc := 100,
    prediction := 1 }

/-- Witness for C5: two same-key writes with different content to the
empty stores leave exactly the second row. -/
theorem persist_replaces_witness :
    weatherKey exampleWeatherRow = weatherKey { exampleWeatherRow with weather_json := clearDay } ∧
    starKey exampleStarRow = starKey { exampleStarRow with prediction := 1 } ∧
    (persistWeather (persistWeather [] [exampleWeatherRow])
        [{ exampleWeatherRow with weather_json := clearDay }]).filter
      (fun x => decide (weatherKey x
        = weatherKey { exampleWeatherRow with weather_json := clearDay }))
      = [{ exampleWeatherRow with weather_json := clearDay }] ∧
    (persistStar (persistStar [] [exampleStarRow])
        [{ exampleStarRow with prediction := 1 }]).countP
      (fun x => decide (starKey x = starKey { exampleStarRow with prediction := 1 })) = 1 := by
  have h := persist_replaces [] exampleWeatherRow
    { exampleWeatherRow with weather_json := clearDay }
    [] exampleStarRow { exampleStarRow with prediction := 1 }
    rfl rfl List.Pairwise.nil List.Pairwise.nil
  exact ⟨rfl, rfl, h.1.1, h.2.2.1⟩

/-- C7 (as stated) is refuted: the weather table's fourth column — its
forecast-date primary-key column — is named `weather_date_local` in the
DDL, not `weather_date_utc`. -/
theorem schema_counterexample :
    ¬ (daily_weather_forecast.columns.map Prod.fst
      = ["latitude", "longitude", "queried_date_utc", "weather_date_utc", "weather_json"]) := by
  decide

/-- C7 (amended): both tables are keyed by their first four columns; the
star table has columns (latitude, longitude, queried_date_utc,
weather_date_utc, prediction) with primary key on the first four, and the
weather table has columns (latitude, longitude, queried_date_utc,
weather_date_local, weather_json) with primary key on the first four —
its forecast-date key column is named `weather_date_local`. -/
theorem schema_amended :
    daily_weather_forecast.columns.map Prod.fst
      = ["latitude", "longitude", "queried_date_utc", "weather_date_local", "weather_json"]
    ∧ daily_weather_forecast.primaryKey
      = ["latitude", "longitude", "queried_date_utc", "weather_date_local"]
    ∧ daily_weather_forecast.primaryKey
      = (daily_weather_forecast.columns.map Prod.fst).take 4
    ∧ daily_star_visibility_forecast.columns.map Prod.fst
      = ["latitude", "longitude", "queried_date_utc", "weather_date_utc", "prediction"]
    ∧ daily_star_visibility_forecast.primaryKey
      = ["latitude", "longitude", "queried_date_utc", "weather_date_utc"]
    ∧ daily_star_visibility_forecast.primaryKey
      = (daily_star_visibility_forecast.columns.map Prod.fst).take 4 :=
  ⟨rfl, rfl, rfl, rfl, rfl, rfl⟩

/-- Does a weather row match the lookup key (latitude, longitude,
queried_date)?  The store compares coordinates at fixed precision,
modelled by exact rational equality. -/
def weatherRowMatches (lat lon : ℚ) (qd : Nat) (r : WeatherRow) : Bool :=
  decide (r.latitude = lat ∧ r.longitude = lon ∧ r.queried_date_utc = qd)

/-- Does a star row match the lookup key (latitude, longitude,
queried_date)? -/
def starRowMatches (lat lon : ℚ) (qd : Nat) (r : StarRow) : Bool :=
  decide (r.latitude = lat ∧ r.longitude = lon ∧ r.queried_date_utc = qd)

/-- Modelled from the spec: `lookup_weather` of the Forecast Store —
return all rows sharing the (latitude, longitude, queried_date) key, one
per forecast day, ordered by forecast date ascending. -/
def lookupWeather (store : List WeatherRow) (lat lon : ℚ) (qd : Nat) : List WeatherRow :=
  List.insertionSort (fun a b => a.weather_date_utc ≤ b.weather_date_utc)
    (store.filter (weatherRowMatches lat lon qd))

/-- Modelled from the spec: `lookup_star` of the Forecast Store, the
symmetric contract on the star table. -/
def lookupStar (store : List StarRow) (lat lon : ℚ) (qd : Nat) : List StarRow :=
  List.insertionSort (fun a b => a.weather_date_utc ≤ b.weather_date_utc)
    (store.filter (starRowMatches lat lon qd))

/-- Modelled from the spec: Provider Client normalization — day `i` of the
upstream batch becomes the canonical row for calendar day `wd + i`, keyed
by the query coordinate and `queried_date`. -/
def normalizeFrom (lat lon : ℚ) (qd : Nat) : Nat → List DailyWeatherRecord → List WeatherRow
  | _, [] => []
  | wd, d :: ds =>
      { latitude := lat, longitude := lon, queried_date_utc := qd,
        weather_date_utc := wd, weather_json := d }
        :: normalizeFrom lat lon qd (wd + 1) ds

/-- Modelled from the spec: fetch-and-normalize — day 0 of the upstream
batch corresponds to `as_of_date` (= `queried_date`), each subsequent
index one calendar day later. -/
def fetchNormalize (lat lon : ℚ) (qd : Nat) (batch : List DailyWeatherRecord) : List WeatherRow :=
  normalizeFrom lat lon qd qd batch

/-- Result of one `get_weather_forecast` call: the returned rows, the
store afterwards, and how many upstream provider fetches were made. -/
structure FetchResult where
  rows : List WeatherRow
  store : List WeatherRow
  upstreamCalls : Nat
deriving DecidableEq

/-- Modelled from the spec: the Weather Orchestrator
`get_weather_forecast(latitude, longitude, as_of_date)` of the missing
`rogue_sky/darksky.py` — check the store; on a hit return the cached rows
with no upstream call; on a miss fetch once, normalize, persist the whole
batch, and return it.  The upstream provider is modelled as the
deterministic batch it would return (the notebook mocks it with a fixed
response). -/
def getWeatherForecast (batch : List DailyWeatherRecord) (store : List WeatherRow)
    (lat lon : ℚ) (qd : Nat) : FetchResult :=
  let cached := lookupWeather store lat lon qd
  if cached.isEmpty then
    let rows := fetchNormalize lat lon qd batch
    { rows := rows, store := persistWeather store rows, upstreamCalls := 1 }
  else
    { rows := cached, store := store, upstreamCalls := 0 }

theorem mem_normalizeFrom (lat lon : ℚ) (qd : Nat) (b : List DailyWeatherRecord) :
    ∀ (wd : Nat) (r : WeatherRow), r ∈ normalizeFrom lat lon qd wd b →
      r.latitude = lat ∧ r.longitude = lon ∧ r.queried_date_utc = qd ∧
      wd ≤ r.weather_date_utc ∧ r.weather_json ∈ b := by
  induction b with
  | nil => intro wd r h; simp [normalizeFrom] at h
  | cons d ds ih =>
    intro wd r h
    simp only [normalizeFrom, List.mem_cons] at h
    rcases h with rfl | h
    · exact ⟨rfl, rfl, rfl, le_rfl, List.mem_cons_self _ _⟩
    · obtain ⟨h1, h2, h3, h4, h5⟩ := ih (wd + 1) r h
      exact ⟨h1, h2, h3, by omega, List.mem_cons_of_mem _ h5⟩

theorem normalizeFrom_pairwise_lt (lat lon : ℚ) (qd : Nat) (b : List DailyWeatherRecord) :
    ∀ wd : Nat, List.Pairwise (fun a c => a.weather_date_utc < c.weather_date_utc)
      (normalizeFrom lat lon qd wd b) := by
  induction b with
  | nil => intro wd; exact List.Pairwise.nil
  | cons d ds ih =>
    intro wd
    refine List.Pairwise.cons ?_ (ih (wd + 1))
    intro r hr
    have h := (mem_normalizeFrom lat lon qd ds (wd + 1) r hr).2.2.2.1
    show wd < r.weather_date_utc
    omega

theorem normalizeFrom_length (lat lon : ℚ) (qd : Nat) (b : List DailyWeatherRecord) :
    ∀ wd : Nat, (normalizeFrom lat lon qd wd b).length = b.length := by
  induction b with
  | nil => intro wd; rfl
  | cons d ds ih => intro wd; simp [normalizeFrom, ih (wd + 1)]

theorem normalizeFrom_pairwise_keys (lat lon : ℚ) (qd wd : Nat) (b : List DailyWeatherRecord) :
    List.Pairwise (fun a c => weatherKey a ≠ weatherKey c) (normalizeFrom lat lon qd wd b) := by
  refine (normalizeFrom_pairwise_lt lat lon qd b wd).imp ?_
  intro a c hlt heq
  have := congrArg (fun k => k.2.2.2) heq
  simp only [weatherKey] at this
  omega

theorem persistBy_fresh {α β : Type} [DecidableEq β] (key : α → β) :
    ∀ (rs store : List α),
      (∀ r ∈ rs, ∀ x ∈ store, key x ≠ key r) →
      List.Pairwise (fun a b => key a ≠ key b) rs →
      persistBy key store rs = store ++ rs := by
  intro rs
  induction rs with
  | nil => intro store _ _; simp [persistBy]
  | cons r rs ih =>
    intro store hfresh hpw
    have hup : upsertBy key store r = store ++ [r] := by
      unfold upsertBy
      have hself : store.filter (fun x => !decide (key x = key r)) = store := by
        apply List.filter_eq_self.mpr
        intro x hx
        simpa using hfresh r (List.mem_cons_self _ _) x hx
      rw [hself]
    have hfresh2 : ∀ r' ∈ rs, ∀ x ∈ store ++ [r], key x ≠ key r' := by
      intro r' hr' x hx
      rcases List.mem_append.mp hx with hx | hx
      · exact hfresh r' (List.mem_cons_of_mem _ hr') x hx
      · rcases List.mem_singleton.mp hx with rfl
        exact (List.pairwise_cons.mp hpw).1 r' hr'
    have step : persistBy key store (r :: rs) = persistBy key (store ++ [r]) rs := by
      simp [persistBy, hup]
    rw [step, ih (store ++ [r]) hfresh2 (List.pairwise_cons.mp hpw).2]
    simp

theorem lookupWeather_filter_empty (store : List WeatherRow) (lat lon : ℚ) (qd : Nat)
    (hmiss : lookupWeather store lat lon qd = []) :
    store.filter (weatherRowMatches lat lon qd) = [] := by
  have hperm := List.perm_insertionSort
    (fun a b : WeatherRow => a.weather_date_utc ≤ b.weather_date_utc)
    (store.filter (weatherRowMatches lat lon qd))
  unfold lookupWeather at hmiss
  rw [hmiss] at hperm
  exact hperm.symm.eq_nil

theorem fetchNormalize_fresh (batch : List DailyWeatherRecord) (store : List WeatherRow)
    (lat lon : ℚ) (qd : Nat) (hmiss : lookupWeather store lat lon qd = []) :
    ∀ r ∈ fetchNormalize lat lon qd batch, ∀ x ∈ store, weatherKey x ≠ weatherKey r := by
  intro r hr x hx heq
  obtain ⟨h1, h2, h3, _, _⟩ := mem_normalizeFrom lat lon qd batch qd r hr
  simp only [weatherKey, Prod.ext_iff] at heq
  have hmem : x ∈ store.filter (weatherRowMatches lat lon qd) := by
    refine List.mem_filter.mpr ⟨hx, ?_⟩
    simp [weatherRowMatches, heq.1, heq.2.1, heq.2.2.1, h1, h2, h3]
  rw [lookupWeather_filter_empty store lat lon qd hmiss] at hmem
  exact List.not_mem_nil x hmem

theorem lookupWeather_after_persist (batch : List DailyWeatherRecord) (store : List WeatherRow)
    (lat lon : ℚ) (qd : Nat) (hmiss : lookupWeather store lat lon qd = []) :
    lookupWeather (store ++ fetchNormalize lat lon qd batch) lat lon qd
      = fetchNormalize lat lon qd batch := by
  unfold lookupWeather
  rw [List.filter_append, lookupWeather_filter_empty store lat lon qd hmiss, List.nil_append]
  have hself : (fetchNormalize lat lon qd batch).filter (weatherRowMatches lat lon qd)
      = fetchNormalize lat lon qd batch := by
    apply List.filter_eq_self.mpr
    intro r hr
    obtain ⟨h1, h2, h3, _, _⟩ := mem_normalizeFrom lat lon qd batch qd r hr
    simp [weatherRowMatches, h1, h2, h3]
  rw [hself]
  exact List.Sorted.insertionSort_eq
    ((normalizeFrom_pairwise_lt lat lon qd batch qd).imp fun h => le_of_lt h)

/-- On a cache miss the Weather Orchestrator fetches once, appends the
normalized batch to the store and returns it. -/
theorem getWeatherForecast_miss (batch : List DailyWeatherRecord) (store : List WeatherRow)
    (lat lon : ℚ) (qd : Nat) (hmiss : lookupWeather store lat lon qd = []) :
    getWeatherForecast batch store lat lon qd
      = { rows := fetchNormalize lat lon qd batch,
          store := store ++ fetchNormalize lat lon qd batch,
          upstreamCalls := 1 } := by
  have hpersist : persistWeather store (fetchNormalize lat lon qd batch)
      = store ++ fetchNormalize lat lon qd batch :=
    persistBy_fresh weatherKey (fetchNormalize lat lon qd batch) store
      (fetchNormalize_fresh batch store lat lon qd hmiss)
      (normalizeFrom_pairwise_keys lat lon qd qd batch)
  simp [getWeatherForecast, hmiss, persistWeather] at hpersist ⊢
  exact hpersist

theorem fetchNormalize_ne_nil (batch : List DailyWeatherRecord) (lat lon : ℚ) (qd : Nat)
    (hne : batch ≠ []) : fetchNormalize lat lon qd batch ≠ [] := by
  intro h
  apply hne
  have hlen : (fetchNormalize lat lon qd batch).length = batch.length :=
    normalizeFrom_length lat lon qd batch qd
  rw [h] at hlen
  exact List.length_eq_zero.mp hlen.symm

/-- On a cache hit the Weather Orchestrator returns the cached rows with
no upstream call and an unchanged store. -/
theorem getWeatherForecast_hit (batch : List DailyWeatherRecord) (store : List WeatherRow)
    (lat lon : ℚ) (qd : Nat) (hhit : lookupWeather store lat lon qd ≠ []) :
    getWeatherForecast batch store lat lon qd
      = { rows := lookupWeather store lat lon qd, store := store, upstreamCalls := 0 } := by
  have hempty : (lookupWeather store lat lon qd).isEmpty = false := by
    cases h : lookupWeather store lat lon qd with
    | nil => exact absurd h hhit
    | cons a l => rfl
  simp [getWeatherForecast, hempty]

/-- C1: on a cache miss, the first `get_weather_forecast` call fetches
from the provider exactly once and persists the normalized batch; a
second call for the same (latitude, longitude, as_of_date) makes no
upstream call and returns bit-identical rows. -/
theorem getWeatherForecast_idempotent (batch : List DailyWeatherRecord)
    (store : List WeatherRow) (lat lon : ℚ) (qd : Nat)
    (hmiss : lookupWeather store lat lon qd = []) (hne : batch ≠ []) :
    (getWeatherForecast batch store lat lon qd).upstreamCalls = 1 ∧
    (getWeatherForecast batch (getWeatherForecast batch store lat lon qd).store
      lat lon qd).upstreamCalls = 0 ∧
    (getWeatherForecast batch (getWeatherForecast batch store lat lon qd).store
      lat lon qd).rows = (getWeatherForecast batch store lat lon qd).rows := by
  have h1 := getWeatherForecast_miss batch store lat lon qd hmiss
  have hlook := lookupWeather_after_persist batch store lat lon qd hmiss
  have h2 := getWeatherForecast_hit batch (store ++ fetchNormalize lat lon qd batch) lat lon qd
    (by rw [hlook]; exact fetchNormalize_ne_nil batch lat lon qd hne)
  rw [h1]
  simp only []
  rw [h2, hlook]
  exact ⟨trivial, rfl, rfl⟩

/-- Witness for C1: one concrete day, empty store. -/
theorem getWeatherForecast_idempotent_witness :
    lookupWeather [] 1 2 100 = [] ∧ [exampleDay] ≠ [] ∧
    ((getWeatherForecast [exampleDay] [] 1 2 100).upstreamCalls = 1 ∧
     (getWeatherForecast [exampleDay] (getWeatherForecast [exampleDay] [] 1 2 100).store
       1 2 100).upstreamCalls = 0 ∧
     (getWeatherForecast [exampleDay] (getWeatherForecast [exampleDay] [] 1 2 100).store
       1 2 100).rows = (getWeatherForecast [exampleDay] [] 1 2 100).rows) :=
  ⟨rfl, by simp,
    getWeatherForecast_idempotent [exampleDay] [] 1 2 100 rfl (by simp)⟩

/-- Result of one `get_star_forecast` call: the returned star rows, both
store tables afterwards, the number of Weather Orchestrator invocations
and the number of upstream provider fetches. -/
structure StarFetchResult where
  rows : List StarRow
  wstore : List WeatherRow
  sstore : List StarRow
  weatherCalls : Nat
  upstreamCalls : Nat
deriving DecidableEq

/-- The star row derived from a weather row: same Forecast Key, scored. -/
def starRowOf (r : WeatherRow) (p : ℚ) : StarRow :=
  { latitude := r.latitude, longitude := r.longitude,
    queried_date_utc := r.queried_date_utc,
    weather_date_utc := r.weather_date_utc, prediction := p }

/-- Modelled from the spec: the Star Orchestrator
`get_star_forecast(latitude, longitude, as_of_date)` of the missing
`rogue_sky/stars.py` — query the star table; on a hit return directly
with no Weather Orchestrator dependency; on a miss invoke the Weather
Orchestrator, score every day of the batch (a day the predictor cannot
score is dropped), persist the scores as one batch, and return them. -/
def getStarForecast (batch : List DailyWeatherRecord) (wstore : List WeatherRow)
    (sstore : List StarRow) (lat lon : ℚ) (qd : Nat) : StarFetchResult :=
  let cached := lookupStar sstore lat lon qd
  if cached.isEmpty then
    let wres := getWeatherForecast batch wstore lat lon qd
    let srows := wres.rows.filterMap (fun r => (predict r.weather_json).map (starRowOf r))
    { rows := srows, wstore := wres.store, sstore := persistStar sstore srows,
      weatherCalls := 1, upstreamCalls := wres.upstreamCalls }
  else
    { rows := cached, wstore := wstore, sstore := sstore,
      weatherCalls := 0, upstreamCalls := 0 }

theorem filterMap_star_forall (rs : List WeatherRow)
    (h : ∀ r ∈ rs, (predict r.weather_json).isSome) :
    List.Forall₂ (fun (s : StarRow) (w : WeatherRow) => s.weather_date_utc = w.weather_date_utc)
      (rs.filterMap (fun r => (predict r.weather_json).map (starRowOf r))) rs := by
  induction rs with
  | nil => exact List.Forall₂.nil
  | cons r rs ih =>
    obtain ⟨p, hp⟩ := Option.isSome_iff_exists.mp (h r (List.mem_cons_self _ _))
    have hfr : (predict r.weather_json).map (starRowOf r) = some (starRowOf r p) := by
      rw [hp]; rfl
    simp only [List.filterMap_cons, hfr]
    exact List.Forall₂.cons rfl (ih fun x hx => h x (List.mem_cons_of_mem _ hx))

/-- C6: `get_star_forecast` first queries the star table; on a non-empty
result it returns it with no Weather Orchestrator invocation and no
upstream fetch; on an empty result (with the weather cache also cold) it
invokes the Weather Orchestrator once — exactly one upstream fetch —
scores every day, persists the scores, and returns one star record per
returned weather day, each sharing that day's forecast date. -/
theorem getStarForecast_cacheAside (batch : List DailyWeatherRecord)
    (wstore : List WeatherRow) (sstore : List StarRow) (lat lon : ℚ) (qd : Nat) :
    (lookupStar sstore lat lon qd ≠ [] →
      (getStarForecast batch wstore sstore lat lon qd).weatherCalls = 0 ∧
      (getStarForecast batch wstore sstore lat lon qd).upstreamCalls = 0 ∧
      (getStarForecast batch wstore sstore lat lon qd).rows = lookupStar sstore lat lon qd)
    ∧ (lookupStar sstore lat lon qd = [] → lookupWeather wstore lat lon qd = [] →
      batch ≠ [] → (∀ d ∈ batch, (predict d).isSome) →
      (getStarForecast batch wstore sstore lat lon qd).weatherCalls = 1 ∧
      (getStarForecast batch wstore sstore lat lon qd).upstreamCalls = 1 ∧
      (getStarForecast batch wstore sstore lat lon qd).sstore
        = persistStar sstore (getStarForecast batch wstore sstore lat lon qd).rows ∧
      List.Forall₂ (fun (s : StarRow) (w : WeatherRow) => s.weather_date_utc = w.weather_date_utc)
        (getStarForecast batch wstore sstore lat lon qd).rows
        (getWeatherForecast batch wstore lat lon qd).rows ∧
      (getStarForecast batch wstore sstore lat lon qd).rows.length = batch.length) := by
  constructor
  · intro hhit
    have hempty : (lookupStar sstore lat lon qd).isEmpty = false := by
      cases h : lookupStar sstore lat lon qd with
      | nil => exact absurd h hhit
      | cons a l => rfl
    refine ⟨?_, ?_, ?_⟩ <;> simp [getStarForecast, hempty]
  · intro hmiss hwmiss hne hsome
    have hw := getWeatherForecast_miss batch wstore lat lon qd hwmiss
    have hsome2 : ∀ r ∈ fetchNormalize lat lon qd batch, (predict r.weather_json).isSome :=
      fun r hr => hsome r.weather_json (mem_normalizeFrom lat lon qd batch qd r hr).2.2.2.2
    have hfa := filterMap_star_forall (fetchNormalize lat lon qd batch) hsome2
    have hrows : (getStarForecast batch wstore sstore lat lon qd).rows
        = (fetchNormalize lat lon qd batch).filterMap
            (fun r => (predict r.weather_json).map (starRowOf r)) := by
      simp [getStarForecast, hmiss, hw]
    refine ⟨?_, ?_, ?_, ?_, ?_⟩
    · simp [getStarForecast, hmiss]
    · simp [getStarForecast, hmiss, hw]
    · simp [getStarForecast, hmiss]
    · rw [hrows, hw]
      exact hfa
    · rw [hrows, List.Forall₂.length_eq hfa]
      exact normalizeFrom_length lat lon qd batch qd

/-- Witness for C6: a star-cache hit makes no weather call; a fully cold
cache makes exactly one weather call and one upstream fetch and returns
one scored row for the one-day batch. -/
theorem getStarForecast_cacheAside_witness :
    (lookupStar [exampleStarRow] 47 (-122) 100 ≠ [] ∧
      (getStarForecast [exampleDay] [] [exampleStarRow]
        47 (-122) 100).weatherCalls = 0)
    ∧ (lookupStar [] 1 2 100 = [] ∧
      (getStarForecast [exampleDay] [] [] 1 2 100).weatherCalls = 1 ∧
      (getStarForecast [exampleDay] [] [] 1 2 100).upstreamCalls = 1 ∧
      (getStarForecast [exampleDay] [] [] 1 2 100).rows.length = 1) := by
  constructor
  · have h := (getStarForecast_cacheAside [exampleDay] [] [exampleStarRow]
      47 (-122) 100).1 (by decide)
    exact ⟨by decide, h.1⟩
  · have h := (getStarForecast_cacheAside [exampleDay] [] [] 1 2 100).2
      rfl rfl (by simp) (by decide)
    exact ⟨rfl, h.1, h.2.1, h.2.2.2.2⟩

/-- The serialized star-forecast response. -/
structure StarResponse where
  latitude : ℚ
  longitude : ℚ
  queried_date_utc : Nat
  daily_forecast : List (List (String × JsonVal))
  city : Option String
  state : Option String

/-- One serialized day of a star forecast: the flattened weather record
with the visibility score appended under `star_visibility`. -/
def serializeDay (w : DailyWeatherRecord) (p : ℚ) : List (String × JsonVal) :=
  dwToJson w ++ [("star_visibility", JsonVal.num p)]

/-- Modelled from the spec: the Star Orchestrator's response construction
(`stars._serialize` of the missing module).  The geocoding collaborator's
outcome is `none` on `GeocodeUnavailable`; the place fields then
degrade to null while the forecast data is still returned. -/
def starResponseOf (geo : Option (String × String)) (lat lon : ℚ) (qd : Nat)
    (days : List (DailyWeatherRecord × ℚ)) : StarResponse :=
  { latitude := lat, longitude := lon, queried_date_utc := qd,
    daily_forecast := days.map (fun d => serializeDay d.1 d.2),
    city := geo.map Prod.fst, state := geo.map Prod.snd }

/-- Serialize an optional string field (absent becomes JSON null). -/
def optStr : Option String → JsonVal
  | none => JsonVal.null
  | some s => JsonVal.str s

/-- The JSON object sent to the frontend for a star-forecast response. -/
def responseToJson (r : StarResponse) : List (String × JsonVal) :=
  [("latitude", JsonVal.num r.latitude),
   ("longitude", JsonVal.num r.longitude),
   ("queried_date_utc", JsonVal.num (r.queried_date_utc : ℚ)),
   ("daily_forecast", JsonVal.arr (r.daily_forecast.map JsonVal.obj)),
   ("city", optStr r.city),
   ("state", optStr r.state)]

/-- C8: a geocoding failure never fails the overall request — the
response is still produced with identical forecast data, and its city and
state fields are null. -/
theorem geocode_failure_degrades (lat lon : ℚ) (qd : Nat)
    (days : List (DailyWeatherRecord × ℚ)) (geo : Option (String × String)) :
    (starResponseOf none lat lon qd days).daily_forecast
      = (starResponseOf geo lat lon qd days).daily_forecast
    ∧ (starResponseOf none lat lon qd days).latitude = lat
    ∧ (starResponseOf none lat lon qd days).longitude = lon
    ∧ (starResponseOf none lat lon qd days).queried_date_utc = qd
    ∧ (starResponseOf none lat lon qd days).city = none
    ∧ (starResponseOf none lat lon qd days).state = none :=
  ⟨rfl, rfl, rfl, rfl, rfl, rfl⟩

/-- C10: the serialized star-forecast response has exactly the top-level
keys latitude, longitude, queried_date_utc, daily_forecast, city, state;
each daily entry is the day's full flattened weather record with the
score exposed under `star_visibility` and no `prediction` key. -/
theorem response_shape (r : StarResponse) (w : DailyWeatherRecord) (p : ℚ)
    (geo : Option (String × String)) (lat lon : ℚ) (qd : Nat)
    (days : List (DailyWeatherRecord × ℚ)) :
    (responseToJson r).map Prod.fst
      = ["latitude", "longitude", "queried_date_utc", "daily_forecast", "city", "state"]
    ∧ (starResponseOf geo lat lon qd days).daily_forecast
      = days.map (fun d => serializeDay d.1 d.2)
    ∧ (serializeDay w p).map Prod.fst = canonicalWeatherFieldNames ++ ["star_visibility"]
    ∧ "prediction" ∉ (serializeDay w p).map Prod.fst
    ∧ ("star_visibility", JsonVal.num p) ∈ serializeDay w p := by
  refine ⟨rfl, rfl, rfl, ?_, ?_⟩
  · have hkeys : (serializeDay w p).map Prod.fst
        = canonicalWeatherFieldNames ++ ["star_visibility"] := rfl
    rw [hkeys]
    decide
  · simp [serializeDay]

end RogueSky
